import Mathlib

/-!
Shallow embedding of the PySD REST façade (src/main.py): a multi-tenant
model registry over an external simulation engine, with endpoints
upload_model, load_model, run_model, get_components, set_parameters,
reset_model and list_models.

The simulation engine (the pysd library) is external to the repository; it
is modelled as an abstract record of pure operations over an opaque handle
type, matching the adapter seam of the specification.  Numeric values are
modelled as Int (the float values cross the boundary untouched by the
façade, which performs no arithmetic on them).  The uuid4 id supply is
modelled as an explicit freshId argument.  The Python dict holding the
registry is modelled as an insertion-ordered association list with unique
keys; dict assignment replaces the value in place, deletion filters the key
out, exactly as Python dict semantics.
-/

namespace PySDApi

/-- Parameter overrides: variable name to numeric value (Dict[str, float]). -/
abbrev Params := List (String × Int)

/-- Time-series table returned by a run: DataFrame.to_dict with list
orientation, i.e. column name to the ordered list of samples, columns in
DataFrame column order. -/
abbrev Table := List (String × List Int)

/-- Outward error of an endpoint: fastapi.HTTPException with a status code
and a detail string. -/
structure HTTPError where
  status : Nat
  detail : String
deriving DecidableEq, Repr

/-- Exceptions that can be raised inside an endpoint body: HTTPException
(caught by the catch-all handler like any other exception) or a plain
exception carrying its message, e.g. from the engine. -/
inductive Exc where
  | http (status : Nat) (detail : String)
  | plain (msg : String)
deriving DecidableEq, Repr

/-- str(e) on an exception: starlette HTTPException stringifies to
"status: detail"; a plain exception to its message. -/
def strOfExc : Exc → String
  | .http s d => toString s ++ ": " ++ d
  | .plain m => m

/-- ComponentTaxonomy: the four structural groups exposed by
engine.components. -/
structure ComponentTaxonomy where
  stocks : List String
  flows : List String
  auxiliaries : List String
  constants : List String
deriving DecidableEq, Repr

/-- The simulation engine adapter seam: the operations of the external pysd
capability used by src/main.py, over an opaque handle type H.  Each
operation can raise (Except String); run and set_components are pure
functions of the handle and arguments, matching the adapter guarantee the
specification assumes of the engine. -/
structure Engine (H : Type) where
  read_vensim : String → Except String H
  read_xmile : String → Except String H
  run : H → Params → Option (List String) → Except String Table
  set_components : H → Params → Except String H
  components : H → Except String ComponentTaxonomy

/-- The registry: the module-level dict `models: Dict[str, pysd.PySD]`,
insertion-ordered with unique keys. -/
abbrev Registry (H : Type) := List (String × H)

/-- Python dict assignment models[k] = v: replaces the value in place when
the key exists (keeping its position), otherwise appends at the end. -/
def dictInsert {H : Type} (m : Registry H) (k : String) (v : H) : Registry H :=
  if (m.lookup k).isSome then
    m.map (fun p => if p.1 = k then (k, v) else p)
  else
    m ++ [(k, v)]

/-- Python dict deletion del models[k]. -/
def dictRemove {H : Type} (m : Registry H) (k : String) : Registry H :=
  m.filter (fun p => decide (p.1 ≠ k))

/-- The characters of the last path component: everything after the last
path separator. -/
def lastComponent (cs : List Char) : List Char :=
  (cs.reverse.takeWhile (fun c => c ≠ '/')).reverse

/-- os.path.splitext(p)[1]: the extension of the last path component,
starting at its last dot, where dots leading the basename do not start an
extension. -/
def splitextExt (p : String) : String :=
  let base := lastComponent p.toList
  let lead := (base.takeWhile (fun c => c = '.')).length
  let rest := base.drop lead
  let tail := (rest.reverse.takeWhile (fun c => c ≠ '.')).reverse
  if tail.length = rest.length then "" else String.mk ('.' :: tail)

/-- str.lower, ASCII case mapping. -/
def strLower (s : String) : String :=
  String.mk (s.toList.map Char.toLower)

/-- LoadModelRequest schema. -/
structure LoadModelRequest where
  path : String
  fileType : String
  modelId : Option String
deriving DecidableEq, Repr

/-- RunModelRequest schema. -/
structure RunModelRequest where
  modelId : String
  params : Option Params
  returnColumns : Option (List String)
deriving DecidableEq, Repr

/-- SetParametersRequest schema. -/
structure SetParametersRequest where
  modelId : String
  parameters : Params
deriving DecidableEq, Repr

/-- ResetModelRequest schema. -/
structure ResetModelRequest where
  modelId : String
deriving DecidableEq, Repr

/-- Detail string of the 404 raised by get_model. -/
def notFoundDetail (model_id : String) : String :=
  "Model " ++ model_id ++ " not found"

/-- get_model helper: raises HTTPException(404) when the id is absent from
the registry, otherwise returns the stored engine handle. -/
def get_model {H : Type} (st : Registry H) (model_id : String) : Except HTTPError H :=
  match st.lookup model_id with
  | some engine => .ok engine
  | none => .error ⟨404, notFoundDetail model_id⟩

/-- Body of the try block of POST /model/upload: extension check, file
staging (abstracted), parse, id generation and registry insertion.  Any
raised exception is returned through the Exc error channel. -/
def upload_model_body {H : Type} (E : Engine H) (st : Registry H) (freshId filename : String) :
    Except Exc (String × Registry H) :=
  let suffix := strLower (splitextExt filename)
  if suffix = ".mdl" ∨ suffix = ".xmile" then
    let parsed := if suffix = ".mdl" then E.read_vensim filename else E.read_xmile filename
    match parsed with
    | .ok engine => .ok (freshId, dictInsert st freshId engine)
    | .error m => .error (.plain m)
  else
    .error (.http 400 "Only .mdl and .xmile files are supported")

/-- POST /model/upload.  The whole body runs under a catch-all handler that
rewraps any exception, the HTTPException(400) for a bad extension included,
as HTTPException(500, str(e)).  freshId models str(uuid.uuid4()). -/
def upload_model {H : Type} (E : Engine H) (st : Registry H) (freshId filename : String) :
    Except HTTPError String × Registry H :=
  match upload_model_body E st freshId filename with
  | .ok (model_id, st2) => (.ok model_id, st2)
  | .error e => (.error ⟨500, strOfExc e⟩, st)

/-- Body of the try block of POST /model/load: model_id is
request.modelId or a fresh uuid, where Python or-semantics also replaces
an empty requested id; then the fileType dispatch, parse and registry
insertion. -/
def load_model_body {H : Type} (E : Engine H) (st : Registry H) (freshId : String)
    (request : LoadModelRequest) : Except Exc (String × Registry H) :=
  let model_id := match request.modelId with
    | some s => if s.isEmpty then freshId else s
    | none => freshId
  let parsed : Except Exc H :=
    if request.fileType = "vensim" then
      (E.read_vensim request.path).mapError .plain
    else if request.fileType = "xmile" then
      (E.read_xmile request.path).mapError .plain
    else
      .error (.http 400 "Unsupported fileType")
  match parsed with
  | .ok engine => .ok (model_id, dictInsert st model_id engine)
  | .error e => .error e

/-- POST /model/load.  The catch-all handler rewraps any exception as
HTTPException(400, str(e)). -/
def load_model {H : Type} (E : Engine H) (st : Registry H) (freshId : String)
    (request : LoadModelRequest) : Except HTTPError String × Registry H :=
  match load_model_body E st freshId request with
  | .ok (model_id, st2) => (.ok model_id, st2)
  | .error e => (.error ⟨400, strOfExc e⟩, st)

/-- POST /model/run.  get_model runs before the try block, so its 404
propagates untouched; engine.run(params=request.params or {},
return_columns=request.returnColumns) runs under the catch-all and any
exception becomes HTTPException(500, str(e)).  Python or-semantics send
both an omitted and an empty params dict to the engine as the empty dict,
modelled by Option.getD.  The registry is not mutated. -/
def run_model {H : Type} (E : Engine H) (st : Registry H) (request : RunModelRequest) :
    Except HTTPError Table × Registry H :=
  match get_model st request.modelId with
  | .error e => (.error e, st)
  | .ok engine =>
    match E.run engine (request.params.getD []) request.returnColumns with
    | .ok results => (.ok results, st)
    | .error m => (.error ⟨500, m⟩, st)

/-- GET /model/components/\x7bmodel_id\x7d. -/
def get_components {H : Type} (E : Engine H) (st : Registry H) (model_id : String) :
    Except HTTPError ComponentTaxonomy × Registry H :=
  match get_model st model_id with
  | .error e => (.error e, st)
  | .ok engine =>
    match E.components engine with
    | .ok structure1 => (.ok structure1, st)
    | .error m => (.error ⟨500, m⟩, st)

/-- POST /model/parameters.  engine.set_components mutates the stored
handle in place, modelled by writing the updated handle back at the same
key. -/
def set_parameters {H : Type} (E : Engine H) (st : Registry H)
    (request : SetParametersRequest) : Except HTTPError String × Registry H :=
  match get_model st request.modelId with
  | .error e => (.error e, st)
  | .ok engine =>
    match E.set_components engine request.parameters with
    | .ok engine2 => (.ok "Parameters set successfully", dictInsert st request.modelId engine2)
    | .error m => (.error ⟨500, m⟩, st)

/-- POST /model/reset. -/
def reset_model {H : Type} (st : Registry H) (request : ResetModelRequest) :
    Except HTTPError String × Registry H :=
  if (st.lookup request.modelId).isSome then
    (.ok ("Model " ++ request.modelId ++ " removed from memory"), dictRemove st request.modelId)
  else
    (.error ⟨404, "Model ID not found"⟩, st)

/-- GET /model/list. -/
def list_models {H : Type} (st : Registry H) : List String :=
  st.map Prod.fst

/-! Concrete engine instances, used to evaluate the endpoints on closed
inputs.  Handles are integers. -/

/-- A total engine: every parse succeeds and every run returns a fixed
two-column table, the requested columns ignored. -/
def demoEngine : Engine Int where
  read_vensim := fun _ => .ok 1
  read_xmile := fun _ => .ok 2
  run := fun h _ _ => .ok [("time", [0, 1]), ("X", [h, h])]
  set_components := fun h _ => .ok (h + 1)
  components := fun _ => .ok ⟨["X"], [], [], []⟩

/-- An engine whose every operation raises, to observe the failure paths
of the endpoints. -/
def failEngine : Engine Int where
  read_vensim := fun _ => .error "vensim parse failed"
  read_xmile := fun _ => .error "xmile parse failed"
  run := fun _ _ _ => .error "run failed"
  set_components := fun _ _ => .error "set failed"
  components := fun _ => .error "components failed"

/-- The variables of the model strictEngine parses. -/
def strictVars : List String := ["time", "X"]

/-- An engine that, like pysd over pandas, raises an opaque low-level
error when a requested return column does not exist in the model. -/
def strictEngine : Engine Int where
  read_vensim := fun _ => .ok 1
  read_xmile := fun _ => .ok 2
  run := fun h _ rc =>
    match rc with
    | some cols =>
      if cols.all (fun c => strictVars.contains c) then
        .ok (cols.map (fun c => (c, [h, h])))
      else
        .error "KeyError in pandas column selection"
    | none => .ok [("X", [h, h])]
  set_components := fun h _ => .ok h
  components := fun _ => .ok ⟨["X"], [], [], []⟩

/-- An engine meeting the adapter run guarantee: with selected outputs it
returns exactly those columns in order, all sequences of one length. -/
def contractEngine : Engine Int where
  read_vensim := fun _ => .ok 1
  read_xmile := fun _ => .ok 2
  run := fun h _ rc =>
    match rc with
    | some cols => .ok (cols.map (fun c => (c, [h, h])))
    | none => .ok [("time", [0, 1]), ("X", [h, h])]
  set_components := fun h _ => .ok h
  components := fun _ => .ok ⟨["X"], [], [], []⟩

/-- All value sequences of a table have equal length. -/
def TableEqualLengths (tbl : Table) : Prop :=
  ∀ p ∈ tbl, ∀ q ∈ tbl, p.2.length = q.2.length

/-- The adapter guarantee of the specification for run with selected
outputs: the returned table carries exactly the selected columns in the
requested order and its sequences share one length (one sample per
simulated time step). -/
def AdapterRunContract {H : Type} (E : Engine H) : Prop :=
  ∀ (hdl : H) (ps : Params) (sel : List String) (tbl : Table),
    E.run hdl ps (some sel) = .ok tbl → tbl.map Prod.fst = sel ∧ TableEqualLengths tbl

/-! Helper lemmas. -/

theorem lookup_dictRemove_self {H : Type} (m : Registry H) (k : String) :
    (dictRemove m k).lookup k = none := by
  induction m with
  | nil => rfl
  | cons p m ih =>
    by_cases hp : p.1 = k
    · simpa [dictRemove, hp] using ih
    · have hk : (k == p.1) = false := beq_eq_false_iff_ne.mpr (fun hkp => hp hkp.symm)
      simp only [dictRemove] at ih ⊢
      simp [List.filter, hp, List.lookup, hk, ih]
      exact fun a b _ h1 h2 => h1 h2.symm

theorem run_model_absent {H : Type} (E : Engine H) (st : Registry H)
    (request : RunModelRequest) (h : st.lookup request.modelId = none) :
    run_model E st request = (.error ⟨404, notFoundDetail request.modelId⟩, st) := by
  simp [run_model, get_model, h]

theorem get_components_absent {H : Type} (E : Engine H) (st : Registry H)
    (model_id : String) (h : st.lookup model_id = none) :
    get_components E st model_id = (.error ⟨404, notFoundDetail model_id⟩, st) := by
  simp [get_components, get_model, h]

theorem set_parameters_absent {H : Type} (E : Engine H) (st : Registry H)
    (request : SetParametersRequest) (h : st.lookup request.modelId = none) :
    set_parameters E st request = (.error ⟨404, notFoundDetail request.modelId⟩, st) := by
  simp [set_parameters, get_model, h]

theorem reset_model_absent {H : Type} (st : Registry H)
    (request : ResetModelRequest) (h : st.lookup request.modelId = none) :
    reset_model st request = (.error ⟨404, "Model ID not found"⟩, st) := by
  simp [reset_model, h]

theorem run_model_state_fixed {H : Type} (E : Engine H) (st : Registry H)
    (request : RunModelRequest) : (run_model E st request).2 = st := by
  unfold run_model
  split
  · rfl
  · split <;> rfl

theorem contractEngine_run_contract : AdapterRunContract contractEngine := by
  intro hdl ps sel tbl h
  simp only [contractEngine, Except.ok.injEq] at h
  subst h
  constructor
  · induction sel with
    | nil => rfl
    | cons c cs ih => simpa using ih
  · intro p hp q hq
    simp only [List.mem_map] at hp hq
    obtain ⟨c, _, rfl⟩ := hp
    obtain ⟨d, _, rfl⟩ := hq
    rfl

theorem get_model_error_status {H : Type} (st : Registry H) (mid : String) (e : HTTPError)
    (h : get_model st mid = .error e) : e.status = 404 := by
  unfold get_model at h
  cases hl : st.lookup mid with
  | some engine => rw [hl] at h; simp at h
  | none =>
    rw [hl] at h
    simp only [Except.error.injEq] at h
    subst h
    rfl

/-- C1: the specification requires load-by-path with a requestedId already
present in the registry to fail with DuplicateId and leave the existing
entry unchanged; evaluated at that failing input, load_model instead
returns success and silently overwrites the stored handle (7 becomes the
freshly parsed handle 1). -/
theorem c1_duplicate_id_silently_overwritten :
    (load_model demoEngine [("m1", (7 : Int))] "fresh-uuid"
        ⟨"growth.mdl", "vensim", some "m1"⟩).1 = .ok "m1" ∧
    (load_model demoEngine [("m1", (7 : Int))] "fresh-uuid"
        ⟨"growth.mdl", "vensim", some "m1"⟩).2 = [("m1", (1 : Int))] ∧
    (7 : Int) ≠ 1 :=
  ⟨rfl, rfl, by decide⟩

/-- C2 as stated is false on the code: run_model performs no validation of
selectedOutputs against the model structure; with a request naming a
variable absent from the model, the engine run IS invoked and its opaque
low-level error surfaces as HTTP 500, rather than an InvalidOverride-class
validation failure raised before the engine call. -/
theorem c2_counterexample_no_pre_engine_validation :
    (run_model strictEngine [("m1", (5 : Int))]
        ⟨"m1", none, some ["no_such_var"]⟩).1
      = .error ⟨500, "KeyError in pandas column selection"⟩ :=
  rfl

/-- C2 amended: run_model forwards overrides and selectedOutputs to the
engine without any validation; an engine failure, including one caused by
an unknown selected-output name, surfaces as HTTP 500 carrying the engine
message, with the registry unchanged.  Non-numeric or missing override
values never reach the orchestrator: the request schema already types
params as a numeric mapping. -/
theorem c2_amended_engine_error_becomes_500 {H : Type} (E : Engine H) (st : Registry H)
    (request : RunModelRequest) (engine : H)
    (hlook : st.lookup request.modelId = some engine) (m : String)
    (hrun : E.run engine (request.params.getD []) request.returnColumns = .error m) :
    run_model E st request = (.error ⟨500, m⟩, st) := by
  simp [run_model, get_model, hlook, hrun]

/-- Witness for the amended C2 at a concrete unknown-output request. -/
theorem c2_amended_witness :
    run_model strictEngine [("m1", (5 : Int))] ⟨"m1", none, some ["no_such_var"]⟩
      = (.error ⟨500, "KeyError in pandas column selection"⟩, [("m1", (5 : Int))]) :=
  c2_amended_engine_error_becomes_500 strictEngine [("m1", 5)]
    ⟨"m1", none, some ["no_such_var"]⟩ 5 rfl
    "KeyError in pandas column selection" rfl

/-- C3 as stated is false on the code: an UnsupportedFormat failure
(fileType csv) and a ParseError failure (a vensim source the engine
rejects) of load_model both surface with the same outward status 400,
distinguishable only by their detail text. -/
theorem c3_counterexample_statuses_collide :
    (load_model demoEngine ([] : Registry Int) "id1" ⟨"m.csv", "csv", none⟩).1
      = .error ⟨400, "400: Unsupported fileType"⟩ ∧
    (load_model failEngine ([] : Registry Int) "id2" ⟨"bad.mdl", "vensim", none⟩).1
      = .error ⟨400, "vensim parse failed"⟩ :=
  ⟨rfl, rfl⟩

/-- C3 amended: only NotFound receives a distinct outward status (404).
Every load_model failure carries status 400 and every upload_model failure
carries status 500, irrespective of whether the class is unsupported
format or parse error, and run_model failures are 404 or 500; so apart
from NotFound a client cannot branch on error kind from the status
alone. -/
theorem c3_amended_status_mapping :
    (∀ (H : Type) (E : Engine H) (st : Registry H) (fid : String)
        (req : LoadModelRequest) (e : HTTPError),
        (load_model E st fid req).1 = .error e → e.status = 400) ∧
    (∀ (H : Type) (E : Engine H) (st : Registry H) (fid fn : String) (e : HTTPError),
        (upload_model E st fid fn).1 = .error e → e.status = 500) ∧
    (∀ (H : Type) (st : Registry H) (mid : String) (e : HTTPError),
        get_model st mid = .error e → e.status = 404) ∧
    (∀ (H : Type) (E : Engine H) (st : Registry H) (req : RunModelRequest) (e : HTTPError),
        (run_model E st req).1 = .error e → e.status = 404 ∨ e.status = 500) := by
  refine ⟨?_, ?_, ?_, ?_⟩
  · intro H E st fid req e h
    cases hb : load_model_body E st fid req with
    | ok v => obtain ⟨mid, st2⟩ := v; simp [load_model, hb] at h
    | error ex =>
      simp only [load_model, hb, Except.error.injEq] at h
      rw [← h]
  · intro H E st fid fn e h
    cases hb : upload_model_body E st fid fn with
    | ok v => obtain ⟨mid, st2⟩ := v; simp [upload_model, hb] at h
    | error ex =>
      simp only [upload_model, hb, Except.error.injEq] at h
      rw [← h]
  · intro H st mid e h
    exact get_model_error_status st mid e h
  · intro H E st req e h
    unfold run_model at h
    cases hg : get_model st req.modelId with
    | error e0 =>
      rw [hg] at h
      simp only [Except.error.injEq] at h
      subst h
      exact Or.inl (get_model_error_status st req.modelId e0 hg)
    | ok engine =>
      rw [hg] at h
      dsimp only at h
      cases hr : E.run engine (req.params.getD []) req.returnColumns with
      | ok results => rw [hr] at h; simp at h
      | error m =>
        rw [hr] at h
        simp only [Except.error.injEq] at h
        rw [← h]
        exact Or.inr rfl

/-- Witness for the amended C3 at concrete failing requests. -/
theorem c3_amended_witness :
    (⟨400, "400: Unsupported fileType"⟩ : HTTPError).status = 400 ∧
    (⟨500, "400: Only .mdl and .xmile files are supported"⟩ : HTTPError).status = 500 ∧
    ((⟨404, notFoundDetail "ghost"⟩ : HTTPError).status = 404 ∨
      (⟨404, notFoundDetail "ghost"⟩ : HTTPError).status = 500) :=
  ⟨c3_amended_status_mapping.1 Int demoEngine [] "id1" ⟨"m.csv", "csv", none⟩ _ rfl,
   c3_amended_status_mapping.2.1 Int demoEngine [] "id2" "model.txt" _ rfl,
   c3_amended_status_mapping.2.2.2 Int demoEngine [] ⟨"ghost", none, none⟩ _ rfl⟩

/-- C4: every operation referencing a model id absent from the registry
(run_model, get_components, set_parameters, reset_model) fails with status
404 and leaves the registry unchanged; the result is the same for every
engine, so no engine call can be observed. -/
theorem c4_absent_id_not_found {H : Type} (E : Engine H) (st : Registry H) (mid : String)
    (h : st.lookup mid = none) (ps : Option Params) (rc : Option (List String))
    (prm : Params) :
    run_model E st ⟨mid, ps, rc⟩ = (.error ⟨404, notFoundDetail mid⟩, st) ∧
    get_components E st mid = (.error ⟨404, notFoundDetail mid⟩, st) ∧
    set_parameters E st ⟨mid, prm⟩ = (.error ⟨404, notFoundDetail mid⟩, st) ∧
    reset_model st ⟨mid⟩ = (.error ⟨404, "Model ID not found"⟩, st) :=
  ⟨run_model_absent E st ⟨mid, ps, rc⟩ h, get_components_absent E st mid h,
   set_parameters_absent E st ⟨mid, prm⟩ h, reset_model_absent st ⟨mid⟩ h⟩

/-- Witness for C4 at an empty registry and the id ghost. -/
theorem c4_witness :
    run_model demoEngine ([] : Registry Int) ⟨"ghost", none, none⟩
        = (.error ⟨404, notFoundDetail "ghost"⟩, []) ∧
    get_components demoEngine ([] : Registry Int) "ghost"
        = (.error ⟨404, notFoundDetail "ghost"⟩, []) ∧
    set_parameters demoEngine ([] : Registry Int) ⟨"ghost", []⟩
        = (.error ⟨404, notFoundDetail "ghost"⟩, []) ∧
    reset_model ([] : Registry Int) ⟨"ghost"⟩
        = (.error ⟨404, "Model ID not found"⟩, []) :=
  c4_absent_id_not_found demoEngine [] "ghost" rfl none none []

/-- C5: model creation is atomic with respect to the registry: whenever
upload_model or load_model fails, for any reason, the registry is returned
unchanged, so no id is inserted and no existing entry is modified. -/
theorem c5_failed_create_leaves_registry {H : Type} (E : Engine H) (st : Registry H)
    (fid fn : String) (req : LoadModelRequest) (e1 e2 : HTTPError) :
    ((upload_model E st fid fn).1 = .error e1 → (upload_model E st fid fn).2 = st) ∧
    ((load_model E st fid req).1 = .error e2 → (load_model E st fid req).2 = st) := by
  constructor
  · intro h
    cases hb : upload_model_body E st fid fn with
    | ok v => obtain ⟨mid, st2⟩ := v; simp [upload_model, hb] at h
    | error ex => simp [upload_model, hb]
  · intro h
    cases hb : load_model_body E st fid req with
    | ok v => obtain ⟨mid, st2⟩ := v; simp [load_model, hb] at h
    | error ex => simp [load_model, hb]

/-- Witness for C5: an unsupported-extension upload and a failing vensim
parse by path both leave the one-entry registry as it was. -/
theorem c5_witness :
    (upload_model failEngine [("m1", (7 : Int))] "u1" "model.txt").2 = [("m1", (7 : Int))] ∧
    (load_model failEngine [("m1", (7 : Int))] "u2" ⟨"m.mdl", "vensim", some "m2"⟩).2
        = [("m1", (7 : Int))] :=
  ⟨(c5_failed_create_leaves_registry failEngine [("m1", 7)] "u1" "model.txt"
      ⟨"m.mdl", "vensim", some "m2"⟩
      ⟨500, "400: Only .mdl and .xmile files are supported"⟩
      ⟨400, "vensim parse failed"⟩).1 rfl,
   (c5_failed_create_leaves_registry failEngine [("m1", 7)] "u2" "model.txt"
      ⟨"m.mdl", "vensim", some "m2"⟩
      ⟨500, "400: Only .mdl and .xmile files are supported"⟩
      ⟨400, "vensim parse failed"⟩).2 rfl⟩

/-- C6: reset_model on a live id succeeds and removes the entry; against
the resulting registry, run_model, get_components and set_parameters on
that id fail with status 404, and a second reset_model also fails with
status 404 rather than succeeding silently. -/
theorem c6_remove_makes_not_found {H : Type} (E : Engine H) (st : Registry H) (mid : String)
    (h : (st.lookup mid).isSome = true) (ps : Option Params) (rc : Option (List String))
    (prm : Params) :
    reset_model st ⟨mid⟩
        = (.ok ("Model " ++ mid ++ " removed from memory"), dictRemove st mid) ∧
    run_model E (dictRemove st mid) ⟨mid, ps, rc⟩
        = (.error ⟨404, notFoundDetail mid⟩, dictRemove st mid) ∧
    get_components E (dictRemove st mid) mid
        = (.error ⟨404, notFoundDetail mid⟩, dictRemove st mid) ∧
    set_parameters E (dictRemove st mid) ⟨mid, prm⟩
        = (.error ⟨404, notFoundDetail mid⟩, dictRemove st mid) ∧
    reset_model (dictRemove st mid) ⟨mid⟩
        = (.error ⟨404, "Model ID not found"⟩, dictRemove st mid) := by
  have hn := lookup_dictRemove_self st mid
  exact ⟨by simp [reset_model, h],
    run_model_absent E (dictRemove st mid) ⟨mid, ps, rc⟩ hn,
    get_components_absent E (dictRemove st mid) mid hn,
    set_parameters_absent E (dictRemove st mid) ⟨mid, prm⟩ hn,
    reset_model_absent (dictRemove st mid) ⟨mid⟩ hn⟩

/-- Witness for C6 at a one-entry registry. -/
theorem c6_witness :
    reset_model [("m1", (7 : Int))] ⟨"m1"⟩
        = (.ok ("Model " ++ "m1" ++ " removed from memory"),
           dictRemove [("m1", (7 : Int))] "m1") ∧
    run_model demoEngine (dictRemove [("m1", (7 : Int))] "m1") ⟨"m1", none, none⟩
        = (.error ⟨404, notFoundDetail "m1"⟩, dictRemove [("m1", (7 : Int))] "m1") ∧
    get_components demoEngine (dictRemove [("m1", (7 : Int))] "m1") "m1"
        = (.error ⟨404, notFoundDetail "m1"⟩, dictRemove [("m1", (7 : Int))] "m1") ∧
    set_parameters demoEngine (dictRemove [("m1", (7 : Int))] "m1") ⟨"m1", []⟩
        = (.error ⟨404, notFoundDetail "m1"⟩, dictRemove [("m1", (7 : Int))] "m1") ∧
    reset_model (dictRemove [("m1", (7 : Int))] "m1") ⟨"m1"⟩
        = (.error ⟨404, "Model ID not found"⟩, dictRemove [("m1", (7 : Int))] "m1") :=
  c6_remove_makes_not_found demoEngine [("m1", (7 : Int))] "m1" rfl none none []

/-- C7: against any engine meeting the adapter run guarantee, a run_model
call with selectedOutputs equal to time then X that succeeds returns a
table whose key order is exactly time then X and whose value sequences all
share one length. -/
theorem c7_selected_output_order {H : Type} (E : Engine H) (hE : AdapterRunContract E)
    (st : Registry H) (req : RunModelRequest)
    (hsel : req.returnColumns = some ["time", "X"]) (tbl : Table)
    (hok : (run_model E st req).1 = .ok tbl) :
    tbl.map Prod.fst = ["time", "X"] ∧ TableEqualLengths tbl := by
  unfold run_model at hok
  cases hg : get_model st req.modelId with
  | error e => rw [hg] at hok; simp at hok
  | ok engine =>
    rw [hg] at hok
    dsimp only at hok
    cases hr : E.run engine (req.params.getD []) req.returnColumns with
    | ok results =>
      rw [hr] at hok
      simp only [Except.ok.injEq] at hok
      subst hok
      exact hE engine (req.params.getD []) ["time", "X"] results (hsel ▸ hr)
    | error m => rw [hr] at hok; simp at hok

/-- Witness for C7 with a contract-abiding engine on a loaded model. -/
theorem c7_witness :
    ([("time", [(1 : Int), 1]), ("X", [1, 1])] : Table).map Prod.fst = ["time", "X"] ∧
    TableEqualLengths [("time", [(1 : Int), 1]), ("X", [1, 1])] :=
  c7_selected_output_order contractEngine contractEngine_run_contract
    [("m1", 1)] ⟨"m1", some [], some ["time", "X"]⟩ rfl
    [("time", [1, 1]), ("X", [1, 1])] rfl

/-- C8: upload_model parses with the vensim reader exactly when the
lowercased file extension is .mdl and with the xmile reader exactly when
it is .xmile; any other extension is rejected with the
unsupported-format diagnostic and the registry stays unchanged. -/
theorem c8_upload_extension_dispatch {H : Type} (E : Engine H) (st : Registry H)
    (fid fn : String) :
    (strLower (splitextExt fn) = ".mdl" →
      upload_model E st fid fn = (match E.read_vensim fn with
        | .ok engine => (.ok fid, dictInsert st fid engine)
        | .error m => (.error ⟨500, m⟩, st))) ∧
    (strLower (splitextExt fn) = ".xmile" →
      upload_model E st fid fn = (match E.read_xmile fn with
        | .ok engine => (.ok fid, dictInsert st fid engine)
        | .error m => (.error ⟨500, m⟩, st))) ∧
    (strLower (splitextExt fn) ≠ ".mdl" → strLower (splitextExt fn) ≠ ".xmile" →
      upload_model E st fid fn
        = (.error ⟨500, "400: Only .mdl and .xmile files are supported"⟩, st)) := by
  refine ⟨?_, ?_, ?_⟩
  · intro hx
    cases hv : E.read_vensim fn <;>
      simp [upload_model, upload_model_body, hx, hv, strOfExc]
  · intro hx
    have hmdl : ¬strLower (splitextExt fn) = ".mdl" := by
      rw [hx]; decide
    cases hv : E.read_xmile fn <;>
      simp [upload_model, upload_model_body, hx, hmdl, hv, strOfExc]
  · intro h1 h2
    have hno : ¬(strLower (splitextExt fn) = ".mdl" ∨ strLower (splitextExt fn) = ".xmile") := by
      rintro (hc | hc)
      · exact h1 hc
      · exact h2 hc
    simp only [upload_model, upload_model_body]
    rw [if_neg hno]
    rfl

/-- Witness for C8: an uppercase .MDL name dispatches to the vensim
reader and inserts the entry; a .txt name is rejected with the registry
unchanged. -/
theorem c8_witness :
    upload_model demoEngine ([] : Registry Int) "u1" "Model.MDL"
        = (.ok "u1", [("u1", (1 : Int))]) ∧
    upload_model demoEngine ([] : Registry Int) "u2" "model.txt"
        = (.error ⟨500, "400: Only .mdl and .xmile files are supported"⟩, []) :=
  ⟨((c8_upload_extension_dispatch demoEngine [] "u1" "Model.MDL").1 rfl).trans rfl,
   (c8_upload_extension_dispatch demoEngine [] "u2" "model.txt").2.2
     (by decide) (by decide)⟩

/-- C9: run_model leaves the registry exactly as it was, so a second
run_model call with the same request against the state produced by the
first call returns the same result as the first: with the engine run a
pure function of handle, overrides and selected outputs, consecutive
identical runs are deterministic. -/
theorem c9_run_deterministic {H : Type} (E : Engine H) (st : Registry H)
    (request : RunModelRequest) :
    (run_model E st request).2 = st ∧
    (run_model E (run_model E st request).2 request).1 = (run_model E st request).1 := by
  have h := run_model_state_fixed E st request
  exact ⟨h, by rw [h]⟩

/-- C10: a run request with the overrides mapping omitted behaves exactly
as one with an empty overrides mapping: Python or-normalization sends both
to the engine as the empty mapping. -/
theorem c10_omitted_params_normalized {H : Type} (E : Engine H) (st : Registry H)
    (mid : String) (rc : Option (List String)) :
    run_model E st ⟨mid, none, rc⟩ = run_model E st ⟨mid, some [], rc⟩ := rfl

end PySDApi
